import Mathlib

/-!
A shallow embedding of `src/js/transform.js`: the `Transform` command object
(construction, `makeInverse`, `apply`) and the `UndoStack` history, together
with an abstract state for the external model collaborator.  Amounts are
rationals, so inverse scale amounts (reciprocals) are exact.  Mutation of the
model is explicit state passing, and messages sent to the `printout` sink are
returned as a list of warning strings.
-/

/-- Scalar axis names ("x", "y", "z") accepted by the model primitives. -/
inductive SAxis : Type
  | x
  | y
  | z
deriving DecidableEq

/-- The `axis` argument of a Transform: a scalar axis or "all". -/
inductive Axis : Type
  | x
  | y
  | z
  | all
deriving DecidableEq

/-- A Transform `amount`: a single scalar, an ordered [x, y, z] triple, or
absent (JS `undefined`, as for `toggleWireframe`). -/
inductive Amount : Type
  | scalar (a : ℚ)
  | triple (a0 a1 a2 : ℚ)
  | undef
deriving DecidableEq

/-- An orientation: the word of (axis, angle) rotations applied so far, most
recent first, kept reduced. -/
abbrev RotWord := List (SAxis × ℚ)

/-- Modelled from the spec: the external model's `rotate(axis, amount)`
primitive (spec section 6; the model object itself is an out-of-scope
collaborator of the source).  It composes one more axis rotation onto the
orientation using only the laws every group of axis rotations satisfies:
rotating by 0 is the identity, and consecutive rotations about one axis add
their angles, cancelling when the sum is 0.  A reduced word is the universal
such composite, so a word equality proved here holds in every concrete
rotation representation (e.g. rotation matrices), while a word inequality
exhibits a composite that no relation common to all rotation groups cancels. -/
def pushRot (w : RotWord) (a : SAxis) (t : ℚ) : RotWord :=
  if t = 0 then w
  else
    match w with
    | [] => [(a, t)]
    | (b, s) :: rest =>
        if b = a then
          if s + t = 0 then rest else (a, s + t) :: rest
        else
          (a, t) :: (b, s) :: rest

/-- Modelled from the spec: the abstract state of the external model and the
queries it must expose (spec section 6).  `translate` adds to a per-axis
position, `scale` multiplies a per-axis factor, `rotate` composes the
orientation word, `toggleWireframe` flips a flag; `xmin`..`zmin` and
`centerx`..`centerz` are the bound / center queries read by the constructor's
`floor` and `center` branches. -/
structure SModel where
  px : ℚ
  py : ℚ
  pz : ℚ
  sx : ℚ
  sy : ℚ
  sz : ℚ
  rot : RotWord
  wire : Bool
  xmin : ℚ
  ymin : ℚ
  zmin : ℚ
  centerx : ℚ
  centery : ℚ
  centerz : ℚ
deriving DecidableEq

/-- Modelled from the spec: `model.translate(axis, amount)` (spec section 6). -/
def SModel.translate (m : SModel) (a : SAxis) (amt : ℚ) : SModel :=
  match a with
  | SAxis.x => { m with px := m.px + amt }
  | SAxis.y => { m with py := m.py + amt }
  | SAxis.z => { m with pz := m.pz + amt }

/-- Modelled from the spec: `model.scale(axis, amount)` (spec section 6). -/
def SModel.scale (m : SModel) (a : SAxis) (amt : ℚ) : SModel :=
  match a with
  | SAxis.x => { m with sx := m.sx * amt }
  | SAxis.y => { m with sy := m.sy * amt }
  | SAxis.z => { m with sz := m.sz * amt }

/-- Modelled from the spec: `model.rotate(axis, amount)` (spec section 6). -/
def SModel.rotate (m : SModel) (a : SAxis) (amt : ℚ) : SModel :=
  { m with rot := pushRot m.rot a amt }

/-- Modelled from the spec: `model.toggleWireframe()` (spec section 6). -/
def SModel.toggleWireframe (m : SModel) : SModel :=
  { m with wire := !m.wire }

/-- The state of a `Transform` object after construction (and possibly after
`makeInverse` set the `inverse` flag on the instance it returns).  Fields the
JS constructor leaves `undefined` are `Option.none` / `Amount.undef`; the
`inverse` field is only ever read for truthiness, so its JS `undefined`
initial value is modelled as `false`. -/
structure STransform where
  op : Option String
  axis : Option Axis
  amount : Amount
  model : Option SModel
  reason : Option String
  inverse : Bool
  dynamic : Option Bool
deriving DecidableEq

/-- The scale-validation test from the constructor:
`amount<=0 || (amount.length && (amount[0]<=0 || amount[1]<=0 || amount[2]<=0))`.
For a triple the JS comparison `amount<=0` compares against `NaN` and is
false, so only the component test matters; for an absent amount JS would
throw reading `.length` (no claim reaches that case). -/
def isBadScale : Amount → Bool
  | Amount.scalar a => decide (a ≤ 0)
  | Amount.triple a0 a1 a2 => decide (a0 ≤ 0) || decide (a1 ≤ 0) || decide (a2 ≤ 0)
  | Amount.undef => false

/-- JS string conversion of an amount, as interpolated into the bad-scale
reason (`"..." + amount`); a JS array prints as comma-separated components. -/
def amountStr : Amount → String
  | Amount.scalar a => toString a
  | Amount.triple a0 a1 a2 => toString a0 ++ "," ++ toString a1 ++ "," ++ toString a2
  | Amount.undef => "undefined"

/-- The `floor` branch of the constructor: negation (`-1 *`) of the model's
current minimum bound(s) along the requested axis or all three.  For an
absent axis JS would read an undefined property; no claim reaches that. -/
def floorAmt (axis : Option Axis) (m : SModel) : Amount :=
  match axis with
  | some Axis.all => Amount.triple (-1 * m.xmin) (-1 * m.ymin) (-1 * m.zmin)
  | some Axis.x => Amount.scalar (-1 * m.xmin)
  | some Axis.y => Amount.scalar (-1 * m.ymin)
  | some Axis.z => Amount.scalar (-1 * m.zmin)
  | Option.none => Amount.undef

/-- The `center` branch of the constructor: negation of the model's reported
center coordinate(s) along the requested axis or all three. -/
def centerAmt (axis : Option Axis) (m : SModel) : Amount :=
  match axis with
  | some Axis.all => Amount.triple (-1 * m.centerx) (-1 * m.centery) (-1 * m.centerz)
  | some Axis.x => Amount.scalar (-1 * m.centerx)
  | some Axis.y => Amount.scalar (-1 * m.centery)
  | some Axis.z => Amount.scalar (-1 * m.centerz)
  | Option.none => Amount.undef

/-- The `Transform(op, axis, amount, model, printout)` constructor.  The JS
`op` and `axis` arguments may be `undefined`, hence `Option`; op strings
outside the switch fall through and leave the `op` field unset.  The message
sink (`printout`) is not part of the recorded state: warnings are returned by
`STransform.apply` instead. -/
def construct (op : Option String) (axis : Option Axis) (amount : Amount)
    (model : Option SModel) : STransform :=
  match model with
  | Option.none =>
      { op := some "noop", axis := Option.none, amount := Amount.undef,
        model := Option.none, reason := some "Model doesn\x27t exist.",
        inverse := false, dynamic := Option.none }
  | some m =>
      if op = some "floor" then
        { op := some "translate", axis := axis, amount := floorAmt axis m,
          model := some m, reason := Option.none, inverse := false,
          dynamic := some false }
      else if op = some "center" then
        { op := some "translate", axis := axis, amount := centerAmt axis m,
          model := some m, reason := Option.none, inverse := false,
          dynamic := some false }
      else if op = some "translate" then
        { op := some "translate", axis := axis, amount := amount,
          model := some m, reason := Option.none, inverse := false,
          dynamic := some false }
      else if op = some "rotate" then
        { op := some "rotate", axis := axis, amount := amount,
          model := some m, reason := Option.none, inverse := false,
          dynamic := some false }
      else if op = some "scale" then
        if isBadScale amount then
          { op := some "noop", axis := Option.none, amount := Amount.undef,
            model := some m,
            reason := some ("Cannot scale by 0 or negative numbers: " ++ amountStr amount),
            inverse := false, dynamic := some false }
        else
          { op := some "scale", axis := axis, amount := amount,
            model := some m, reason := Option.none, inverse := false,
            dynamic := some false }
      else if op = some "toggleWireframe" then
        { op := some "toggleWireframe", axis := Option.none, amount := Amount.undef,
          model := some m, reason := Option.none, inverse := false,
          dynamic := some false }
      else
        { op := Option.none, axis := Option.none, amount := Amount.undef,
          model := some m, reason := Option.none, inverse := false,
          dynamic := some false }

/-- `Transform.prototype.apply`: mutates the model through its primitive
operations and may emit a warning through the message sink.  Returns the new
model state together with the warnings emitted.  The amount-shape fallbacks
marked unreachable correspond to JS computing with `undefined`/`NaN`; the
constructor never produces them for the transforms the claims quantify over. -/
def STransform.apply (t : STransform) (m : SModel) : SModel × List String :=
  if t.op = some "noop" then
    (m, [t.reason.getD ""])
  else if t.op = some "translate" then
    if t.axis = some Axis.all then
      match t.amount with
      | Amount.triple a0 a1 a2 =>
          (((m.translate SAxis.x a0).translate SAxis.y a1).translate SAxis.z a2, [])
      | _ => (m, [])
    else
      match t.axis, t.amount with
      | some Axis.x, Amount.scalar a => (m.translate SAxis.x a, [])
      | some Axis.y, Amount.scalar a => (m.translate SAxis.y a, [])
      | some Axis.z, Amount.scalar a => (m.translate SAxis.z a, [])
      | _, _ => (m, [])
  else if t.op = some "rotate" then
    if t.axis = some Axis.all then
      match t.amount with
      | Amount.triple a0 a1 a2 =>
          if t.inverse then
            (((m.rotate SAxis.z a0).rotate SAxis.y a1).rotate SAxis.x a2, [])
          else
            (((m.rotate SAxis.x a0).rotate SAxis.y a1).rotate SAxis.z a2, [])
      | _ => (m, [])
    else
      match t.axis, t.amount with
      | some Axis.x, Amount.scalar a => (m.rotate SAxis.x a, [])
      | some Axis.y, Amount.scalar a => (m.rotate SAxis.y a, [])
      | some Axis.z, Amount.scalar a => (m.rotate SAxis.z a, [])
      | _, _ => (m, [])
  else if t.op = some "scale" then
    if t.axis = some Axis.all then
      match t.amount with
      | Amount.triple a0 _ _ =>
          (((m.scale SAxis.x a0).scale SAxis.y a0).scale SAxis.z a0, [])
      | _ => (m, [])
    else
      match t.axis, t.amount with
      | some Axis.x, Amount.scalar a => (m.scale SAxis.x a, [])
      | some Axis.y, Amount.scalar a => (m.scale SAxis.y a, [])
      | some Axis.z, Amount.scalar a => (m.scale SAxis.z a, [])
      | _, _ => (m, [])
  else if t.op = some "toggleWireframe" then
    (m.toggleWireframe, [])
  else
    (m, [])

/-- `Transform.prototype.makeInverse`: `null` for a noop, otherwise a new
Transform built by the constructor from the same op, axis and model with the
reciprocal (scale) or `-1 *` (everything else) amount, its `inverse` flag set.
The `Amount.undef` fallbacks stand for JS computing `NaN` from an undefined
amount (as for `toggleWireframe`), a value the constructor then discards. -/
def STransform.makeInverse (t : STransform) : Option STransform :=
  if t.op = some "noop" then
    Option.none
  else
    let amount : Amount :=
      if t.op = some "scale" then
        if t.axis = some Axis.all then
          match t.amount with
          | Amount.triple a0 a1 a2 => Amount.triple (1 / a0) (1 / a1) (1 / a2)
          | _ => Amount.undef
        else
          match t.amount with
          | Amount.scalar a => Amount.scalar (1 / a)
          | _ => Amount.undef
      else
        if t.axis = some Axis.all then
          match t.amount with
          | Amount.triple a0 a1 a2 => Amount.triple (-1 * a0) (-1 * a1) (-1 * a2)
          | _ => Amount.undef
        else
          match t.amount with
          | Amount.scalar a => Amount.scalar (-1 * a)
          | _ => Amount.undef
    let inv := construct t.op t.axis amount t.model
    some { inv with inverse := true }

/-- `UndoStack`: the linear history of inverse Transforms. -/
structure UndoStack where
  history : List STransform
deriving DecidableEq

/-- The `UndoStack(printout)` constructor: an empty history. -/
def UndoStack.new : UndoStack := ⟨[]⟩

/-- `UndoStack.prototype.push`: append when the argument is non-null. -/
def UndoStack.push (s : UndoStack) (inv : Option STransform) : UndoStack :=
  match inv with
  | Option.none => s
  | some t => ⟨s.history ++ [t]⟩

/-- `UndoStack.prototype.undo`: warn on an empty history, else pop the most
recent entry and apply it.  Returns the new stack, the new model state and
the warnings emitted. -/
def UndoStack.undo (s : UndoStack) (m : SModel) : UndoStack × SModel × List String :=
  match s.history.getLast? with
  | Option.none => (s, m, ["No undo history available."])
  | some inv =>
      let r := inv.apply m
      (⟨s.history.dropLast⟩, r.1, r.2)

/-- `UndoStack.prototype.clear`. -/
def UndoStack.clear (_ : UndoStack) : UndoStack := ⟨[]⟩

/-- A concrete model state used as a test fixture; its bounds are the ones in
claim C8 (`xmin = -2`, `ymin = 0`, `zmin = 5`). -/
def testModel : SModel :=
  { px := 0, py := 0, pz := 0, sx := 1, sy := 1, sz := 1, rot := [],
    wire := false, xmin := -2, ymin := 0, zmin := 5,
    centerx := 1, centery := 2, centerz := 3 }

/-- Constructor equation: a valid (positive-amount) scale construction. -/
theorem construct_scale_ok (ax : Option Axis) (amt : Amount) (m : SModel)
    (h : isBadScale amt = false) :
    construct (some "scale") ax amt (some m) =
      { op := some "scale", axis := ax, amount := amt, model := some m,
        reason := Option.none, inverse := false, dynamic := some false } := by
  simp [construct, h]

/-- Constructor equation: a pass-through translate construction. -/
theorem construct_translate (ax : Option Axis) (amt : Amount) (m : SModel) :
    construct (some "translate") ax amt (some m) =
      { op := some "translate", axis := ax, amount := amt, model := some m,
        reason := Option.none, inverse := false, dynamic := some false } := by
  simp [construct]

/-- Constructor equation: a pass-through rotate construction. -/
theorem construct_rotate (ax : Option Axis) (amt : Amount) (m : SModel) :
    construct (some "rotate") ax amt (some m) =
      { op := some "rotate", axis := ax, amount := amt, model := some m,
        reason := Option.none, inverse := false, dynamic := some false } := by
  simp [construct]

/-- C7: constructing any Transform with the model argument absent yields a
noop Transform with reason "Model doesn't exist.", independently of op, axis
and amount: no other construction logic runs. -/
theorem missing_model_noop (op : Option String) (ax : Option Axis) (amt : Amount) :
    construct op ax amt Option.none =
      { op := some "noop", axis := Option.none, amount := Amount.undef,
        model := Option.none, reason := some "Model doesn\x27t exist.",
        inverse := false, dynamic := Option.none } := rfl

/-- C8: `floor` resolves to a translate Transform whose amount is the
negation of the model's per-axis minimum bound(s) — a triple of negated
minima in [x, y, z] order for axis "all", `-model[axis+"min"]` for a scalar
axis; in particular, with bounds xmin = -2, ymin = 0, zmin = 5 (the fixture
`testModel`), floor on "all" yields the amount triple (2, 0, -5). -/
theorem floor_resolves_translate (ax : Axis) (amt : Amount) (M : SModel) :
    ((construct (some "floor") (some ax) amt (some M)).op = some "translate" ∧
     (construct (some "floor") (some ax) amt (some M)).axis = some ax ∧
     (construct (some "floor") (some ax) amt (some M)).amount =
       (match ax with
        | Axis.all => Amount.triple (-M.xmin) (-M.ymin) (-M.zmin)
        | Axis.x => Amount.scalar (-M.xmin)
        | Axis.y => Amount.scalar (-M.ymin)
        | Axis.z => Amount.scalar (-M.zmin))) ∧
    (construct (some "floor") (some Axis.all) amt (some testModel)).amount =
      Amount.triple 2 0 (-5) := by
  refine ⟨⟨?_, ?_, ?_⟩, ?_⟩
  · simp [construct]
  · simp [construct]
  · cases ax <;> simp [construct, floorAmt]
  · simp [construct, floorAmt, testModel]

/-- C10: an op string outside {floor, center, translate, rotate, scale,
toggleWireframe} passed with a present model completes construction with the
`op` field unset, and `apply` on the result mutates nothing and emits no
message (every switch falls through without a default branch). -/
theorem unknown_op_inert (op : String)
    (hop : op ≠ "floor" ∧ op ≠ "center" ∧ op ≠ "translate" ∧ op ≠ "rotate" ∧
           op ≠ "scale" ∧ op ≠ "toggleWireframe")
    (ax : Option Axis) (amt : Amount) (M m : SModel) :
    (construct (some op) ax amt (some M)).op = Option.none ∧
    (construct (some op) ax amt (some M)).apply m = (m, []) := by
  obtain ⟨h1, h2, h3, h4, h5, h6⟩ := hop
  have hc : construct (some op) ax amt (some M) =
      { op := Option.none, axis := Option.none, amount := Amount.undef,
        model := some M, reason := Option.none, inverse := false,
        dynamic := some false } := by
    simp [construct, h1, h2, h3, h4, h5, h6]
  rw [hc]
  exact ⟨rfl, rfl⟩

/-- Witness for C10 at the concrete op string "frobnicate". -/
theorem unknown_op_inert_witness :
    ("frobnicate" ≠ "floor" ∧ "frobnicate" ≠ "center" ∧
     "frobnicate" ≠ "translate" ∧ "frobnicate" ≠ "rotate" ∧
     "frobnicate" ≠ "scale" ∧ "frobnicate" ≠ "toggleWireframe") ∧
    (construct (some "frobnicate") Option.none Amount.undef (some testModel)).op
        = Option.none ∧
    (construct (some "frobnicate") Option.none Amount.undef (some testModel)).apply
        testModel = (testModel, []) := by
  refine ⟨⟨by decide, by decide, by decide, by decide, by decide, by decide⟩, ?_⟩
  exact unknown_op_inert "frobnicate"
    ⟨by decide, by decide, by decide, by decide, by decide, by decide⟩
    Option.none Amount.undef testModel testModel

/-- C5: pushing three non-null Transforms inv1, inv2, inv3 onto a fresh
UndoStack and then calling undo three times applies exactly inv3, then inv2,
then inv1, each call consuming exactly one history entry; a fourth undo
reports "No undo history available." and performs no model mutation. -/
theorem undo_three_reverse_order (i1 i2 i3 : STransform) (m : SModel) :
    ((((UndoStack.new.push (some i1)).push (some i2)).push (some i3)).undo m
        = (⟨[i1, i2]⟩, i3.apply m)) ∧
    ((⟨[i1, i2]⟩ : UndoStack).undo (i3.apply m).1
        = (⟨[i1]⟩, i2.apply (i3.apply m).1)) ∧
    ((⟨[i1]⟩ : UndoStack).undo (i2.apply (i3.apply m).1).1
        = (⟨[]⟩, i1.apply (i2.apply (i3.apply m).1).1)) ∧
    ((⟨[]⟩ : UndoStack).undo (i1.apply (i2.apply (i3.apply m).1).1).1
        = (⟨[]⟩, (i1.apply (i2.apply (i3.apply m).1).1).1,
           ["No undo history available."])) := by
  refine ⟨?_, ?_, ?_, rfl⟩ <;>
    simp [UndoStack.new, UndoStack.push, UndoStack.undo]

/-- C9: makeInverse returns null exactly on a noop Transform; UndoStack.push
appends a non-null argument and leaves the history unchanged on a null one,
so pushing the makeInverse of a noop never changes the undo history. -/
theorem noop_inverse_null_push (t : STransform) (s : UndoStack) :
    (t.makeInverse = Option.none ↔ t.op = some "noop") ∧
    (∀ u : STransform, s.push (some u) = ⟨s.history ++ [u]⟩) ∧
    s.push Option.none = s ∧
    (t.op = some "noop" → (s.push t.makeInverse).history = s.history) := by
  have hiff : t.makeInverse = Option.none ↔ t.op = some "noop" := by
    constructor
    · intro h
      by_contra hop
      simp [STransform.makeInverse, hop] at h
    · intro h
      simp [STransform.makeInverse, h]
  refine ⟨hiff, fun u => rfl, rfl, fun h => ?_⟩
  rw [hiff.mpr h]
  rfl

/-- Witness for C9 at a concrete noop Transform (a rejected scale by 0) and
the fresh empty stack. -/
theorem noop_inverse_null_push_witness :
    ((construct (some "scale") (some Axis.x) (Amount.scalar 0)
        (some testModel)).op = some "noop") ∧
    ((UndoStack.new.push (construct (some "scale") (some Axis.x)
        (Amount.scalar 0) (some testModel)).makeInverse).history
      = UndoStack.new.history) := by
  have h : (construct (some "scale") (some Axis.x) (Amount.scalar 0)
      (some testModel)).op = some "noop" := by decide
  exact ⟨h, (noop_inverse_null_push (construct (some "scale") (some Axis.x)
    (Amount.scalar 0) (some testModel)) UndoStack.new).2.2.2 h⟩

/-- Axis "all" carries an [x, y, z] triple and a scalar axis carries a single
scalar (the data-model invariant of spec section 3). -/
def axisAmtMatch : Option Axis → Amount → Bool
  | some Axis.all, Amount.triple _ _ _ => true
  | some Axis.x, Amount.scalar _ => true
  | some Axis.y, Amount.scalar _ => true
  | some Axis.z, Amount.scalar _ => true
  | _, _ => false

/-- Every component of the amount is strictly positive. -/
def Amount.allPos : Amount → Bool
  | Amount.scalar a => decide (0 < a)
  | Amount.triple a0 a1 a2 => decide (0 < a0) && decide (0 < a1) && decide (0 < a2)
  | Amount.undef => false

/-- A strictly positive amount passes the constructor's scale validation. -/
theorem allPos_not_bad (amt : Amount) (h : amt.allPos = true) :
    isBadScale amt = false := by
  cases amt with
  | scalar a =>
      simp [Amount.allPos] at h
      simp [isBadScale, not_le, h]
  | triple a0 a1 a2 =>
      simp [Amount.allPos] at h
      simp [isBadScale, not_le, h.1.1, h.1.2, h.2]
  | undef => simp [Amount.allPos] at h

/-- Helper: the bad-scale reason string is non-empty whatever the amount. -/
theorem scale_reason_ne_empty (s : String) :
    ("Cannot scale by 0 or negative numbers: " ++ s) ≠ "" := by
  intro h
  have hlen := congrArg String.length h
  rw [String.length_append] at hlen
  simp at hlen
  exact absurd hlen.1 (by decide)

/-- C6: constructing a scale Transform whose amount is a scalar at most 0, or
a triple with some component at most 0, yields op "noop" with a non-empty
reason, and apply on it mutates nothing and emits exactly that reason through
the message sink. -/
theorem bad_scale_becomes_noop (ax : Option Axis) (amt : Amount) (M m : SModel)
    (hbad : (∃ a, amt = Amount.scalar a ∧ a ≤ 0) ∨
            (∃ a0 a1 a2, amt = Amount.triple a0 a1 a2 ∧
              (a0 ≤ 0 ∨ a1 ≤ 0 ∨ a2 ≤ 0))) :
    (construct (some "scale") ax amt (some M)).op = some "noop" ∧
    ∃ r, (construct (some "scale") ax amt (some M)).reason = some r ∧ r ≠ "" ∧
      (construct (some "scale") ax amt (some M)).apply m = (m, [r]) := by
  have hb : isBadScale amt = true := by
    rcases hbad with ⟨a, rfl, ha⟩ | ⟨a0, a1, a2, rfl, ha⟩
    · simp [isBadScale, ha]
    · rcases ha with h | h | h <;> simp [isBadScale, h]
  have hc : construct (some "scale") ax amt (some M) =
      { op := some "noop", axis := Option.none, amount := Amount.undef,
        model := some M,
        reason := some ("Cannot scale by 0 or negative numbers: " ++ amountStr amt),
        inverse := false, dynamic := some false } := by
    simp [construct, hb]
  rw [hc]
  exact ⟨rfl, "Cannot scale by 0 or negative numbers: " ++ amountStr amt,
    rfl, scale_reason_ne_empty _, rfl⟩

/-- Witness for C6 at the concrete amount 0 (a scalar). -/
theorem bad_scale_becomes_noop_witness :
    ((∃ a, Amount.scalar (0 : ℚ) = Amount.scalar a ∧ a ≤ 0) ∨
     (∃ a0 a1 a2, Amount.scalar (0 : ℚ) = Amount.triple a0 a1 a2 ∧
       (a0 ≤ 0 ∨ a1 ≤ 0 ∨ a2 ≤ 0))) ∧
    ((construct (some "scale") (some Axis.x) (Amount.scalar 0)
        (some testModel)).op = some "noop" ∧
     ∃ r, (construct (some "scale") (some Axis.x) (Amount.scalar 0)
        (some testModel)).reason = some r ∧ r ≠ "" ∧
      (construct (some "scale") (some Axis.x) (Amount.scalar 0)
        (some testModel)).apply testModel = (testModel, [r])) :=
  ⟨Or.inl ⟨0, rfl, le_refl 0⟩,
   bad_scale_becomes_noop (some Axis.x) (Amount.scalar 0) testModel testModel
     (Or.inl ⟨0, rfl, le_refl 0⟩)⟩

/-- C3: applying a (valid) scale Transform with axis "all" and amount triple
(a0, a1, a2) scales x, y and z each by a0, the triple's first component; the
resulting state does not depend on a1 or a2, which are never passed to the
model. -/
theorem scale_all_uses_first_component (a0 a1 a2 : ℚ) (M m : SModel)
    (h0 : 0 < a0) (h1 : 0 < a1) (h2 : 0 < a2) :
    (construct (some "scale") (some Axis.all) (Amount.triple a0 a1 a2)
        (some M)).apply m
      = (((m.scale SAxis.x a0).scale SAxis.y a0).scale SAxis.z a0, []) := by
  have hb : isBadScale (Amount.triple a0 a1 a2) = false := by
    simp [isBadScale, not_le, h0, h1, h2]
  rw [construct_scale_ok _ _ _ hb]
  simp [STransform.apply]

/-- Witness for C3 at the concrete triple (2, 3, 4). -/
theorem scale_all_uses_first_component_witness :
    (0 : ℚ) < 2 ∧ (0 : ℚ) < 3 ∧ (0 : ℚ) < 4 ∧
    (construct (some "scale") (some Axis.all) (Amount.triple 2 3 4)
        (some testModel)).apply testModel
      = (((testModel.scale SAxis.x 2).scale SAxis.y 2).scale SAxis.z 2, []) :=
  ⟨by norm_num, by norm_num, by norm_num,
   scale_all_uses_first_component 2 3 4 testModel testModel
     (by norm_num) (by norm_num) (by norm_num)⟩

/-- C2: for a scale Transform with strictly positive amount (a scalar, or a
triple with all components positive, matching the axis shape), applying the
forward Transform and then the Transform returned by makeInverse restores
every per-axis scale factor of the model to its pre-transform value, exactly. -/
theorem scale_forward_inverse_restores (ax : Axis) (amt : Amount) (M m : SModel)
    (hmatch : axisAmtMatch (some ax) amt = true) (hpos : amt.allPos = true) :
    ∃ tinv,
      (construct (some "scale") (some ax) amt (some M)).makeInverse = some tinv ∧
      (tinv.apply ((construct (some "scale") (some ax) amt (some M)).apply m).1).1.sx
        = m.sx ∧
      (tinv.apply ((construct (some "scale") (some ax) amt (some M)).apply m).1).1.sy
        = m.sy ∧
      (tinv.apply ((construct (some "scale") (some ax) amt (some M)).apply m).1).1.sz
        = m.sz := by
  have hb := allPos_not_bad amt hpos
  cases ax with
  | x =>
      cases amt with
      | scalar a =>
          simp [Amount.allPos] at hpos
          have ha : a ≠ 0 := ne_of_gt hpos
          have hb2 : isBadScale (Amount.scalar a⁻¹) = false := by
            simp [isBadScale, not_le, inv_pos, hpos]
          rw [construct_scale_ok _ _ _ hb]
          refine ⟨{ op := some "scale", axis := some Axis.x,
                    amount := Amount.scalar (1 / a), model := some M,
                    reason := Option.none, inverse := true,
                    dynamic := some false }, ?_, ?_, ?_, ?_⟩
          · simp [STransform.makeInverse, construct_scale_ok _ _ _ hb2]
          · simp [STransform.apply, SModel.scale]
            field_simp
          · simp [STransform.apply, SModel.scale]
          · simp [STransform.apply, SModel.scale]
      | triple a0 a1 a2 => simp [axisAmtMatch] at hmatch
      | undef => simp [axisAmtMatch] at hmatch
  | y =>
      cases amt with
      | scalar a =>
          simp [Amount.allPos] at hpos
          have ha : a ≠ 0 := ne_of_gt hpos
          have hb2 : isBadScale (Amount.scalar a⁻¹) = false := by
            simp [isBadScale, not_le, inv_pos, hpos]
          rw [construct_scale_ok _ _ _ hb]
          refine ⟨{ op := some "scale", axis := some Axis.y,
                    amount := Amount.scalar (1 / a), model := some M,
                    reason := Option.none, inverse := true,
                    dynamic := some false }, ?_, ?_, ?_, ?_⟩
          · simp [STransform.makeInverse, construct_scale_ok _ _ _ hb2]
          · simp [STransform.apply, SModel.scale]
          · simp [STransform.apply, SModel.scale]
            field_simp
          · simp [STransform.apply, SModel.scale]
      | triple a0 a1 a2 => simp [axisAmtMatch] at hmatch
      | undef => simp [axisAmtMatch] at hmatch
  | z =>
      cases amt with
      | scalar a =>
          simp [Amount.allPos] at hpos
          have ha : a ≠ 0 := ne_of_gt hpos
          have hb2 : isBadScale (Amount.scalar a⁻¹) = false := by
            simp [isBadScale, not_le, inv_pos, hpos]
          rw [construct_scale_ok _ _ _ hb]
          refine ⟨{ op := some "scale", axis := some Axis.z,
                    amount := Amount.scalar (1 / a), model := some M,
                    reason := Option.none, inverse := true,
                    dynamic := some false }, ?_, ?_, ?_, ?_⟩
          · simp [STransform.makeInverse, construct_scale_ok _ _ _ hb2]
          · simp [STransform.apply, SModel.scale]
          · simp [STransform.apply, SModel.scale]
          · simp [STransform.apply, SModel.scale]
            field_simp
      | triple a0 a1 a2 => simp [axisAmtMatch] at hmatch
      | undef => simp [axisAmtMatch] at hmatch
  | all =>
      cases amt with
      | scalar a => simp [axisAmtMatch] at hmatch
      | triple a0 a1 a2 =>
          simp [Amount.allPos] at hpos
          obtain ⟨⟨h0, h1⟩, h2⟩ := hpos
          have ha0 : a0 ≠ 0 := ne_of_gt h0
          have hb2 : isBadScale
              (Amount.triple a0⁻¹ a1⁻¹ a2⁻¹) = false := by
            simp [isBadScale, not_le, inv_pos, h0, h1, h2]
          rw [construct_scale_ok _ _ _ hb]
          refine ⟨{ op := some "scale", axis := some Axis.all,
                    amount := Amount.triple (1 / a0) (1 / a1) (1 / a2),
                    model := some M, reason := Option.none, inverse := true,
                    dynamic := some false }, ?_, ?_, ?_, ?_⟩
          · simp [STransform.makeInverse, construct_scale_ok _ _ _ hb2]
          · simp [STransform.apply, SModel.scale]
            field_simp
          · simp [STransform.apply, SModel.scale]
            field_simp
          · simp [STransform.apply, SModel.scale]
            field_simp
      | undef => simp [axisAmtMatch] at hmatch

/-- Witness for C2 at axis "all" with the concrete triple (2, 3, 4). -/
theorem scale_forward_inverse_restores_witness :
    axisAmtMatch (some Axis.all) (Amount.triple 2 3 4) = true ∧
    (Amount.triple 2 3 4).allPos = true ∧
    ∃ tinv,
      (construct (some "scale") (some Axis.all) (Amount.triple 2 3 4)
          (some testModel)).makeInverse = some tinv ∧
      (tinv.apply ((construct (some "scale") (some Axis.all) (Amount.triple 2 3 4)
          (some testModel)).apply testModel).1).1.sx = testModel.sx ∧
      (tinv.apply ((construct (some "scale") (some Axis.all) (Amount.triple 2 3 4)
          (some testModel)).apply testModel).1).1.sy = testModel.sy ∧
      (tinv.apply ((construct (some "scale") (some Axis.all) (Amount.triple 2 3 4)
          (some testModel)).apply testModel).1).1.sz = testModel.sz :=
  ⟨by decide, by decide,
   scale_forward_inverse_restores Axis.all (Amount.triple 2 3 4) testModel
     testModel (by decide) (by decide)⟩

/-- The Transform data-model invariants (spec section 3): a known op tag; a
present model once construction passed the missing-model guard; axis "all"
paired with a triple amount and a scalar axis with a scalar; strictly
positive scale amounts; no axis and no amount for toggleWireframe. -/
def STransform.wf (t : STransform) : Bool :=
  if t.op = some "noop" then true
  else if t.op = some "translate" then t.model.isSome && axisAmtMatch t.axis t.amount
  else if t.op = some "rotate" then t.model.isSome && axisAmtMatch t.axis t.amount
  else if t.op = some "scale" then
    t.model.isSome && axisAmtMatch t.axis t.amount && t.amount.allPos
  else if t.op = some "toggleWireframe" then
    t.model.isSome && t.axis.isNone && decide (t.amount = Amount.undef)
  else false

/-- Componentwise arithmetic negation of an amount (claim C4 vocabulary). -/
def negAmt : Amount → Amount
  | Amount.scalar a => Amount.scalar (-a)
  | Amount.triple a0 a1 a2 => Amount.triple (-a0) (-a1) (-a2)
  | Amount.undef => Amount.undef

/-- Componentwise reciprocal of an amount (claim C4 vocabulary). -/
def recipAmt : Amount → Amount
  | Amount.scalar a => Amount.scalar (1 / a)
  | Amount.triple a0 a1 a2 => Amount.triple (1 / a0) (1 / a1) (1 / a2)
  | Amount.undef => Amount.undef

/-- C4: makeInverse of a well-formed non-noop Transform returns a new
Transform with the same op and axis referencing the same model, with its
inverse flag set to true, whose amount is the componentwise negation of the
original amount for translate and rotate, and the componentwise reciprocal
for scale. -/
theorem makeInverse_nonNoop_spec (t : STransform)
    (hwf : t.wf = true) (hop : t.op ≠ some "noop") :
    ∃ inv, t.makeInverse = some inv ∧
      inv.op = t.op ∧ inv.axis = t.axis ∧ inv.model = t.model ∧
      inv.inverse = true ∧
      ((t.op = some "translate" ∨ t.op = some "rotate") →
        inv.amount = negAmt t.amount) ∧
      (t.op = some "scale" → inv.amount = recipAmt t.amount) := by
  obtain ⟨op, ax, amt, mdl, rsn, binv, dyn⟩ := t
  simp only at hop ⊢
  by_cases h1 : op = some "noop"
  · exact absurd h1 hop
  by_cases h2 : op = some "translate"
  · subst h2
    simp [STransform.wf] at hwf
    obtain ⟨hm, hmatch⟩ := hwf
    cases mdl with
    | none => simp at hm
    | some M =>
        cases ax with
        | none => simp [axisAmtMatch] at hmatch
        | some a =>
            cases a <;> cases amt <;> simp [axisAmtMatch] at hmatch <;>
              exact ⟨_, rfl, rfl, rfl, rfl, rfl,
                fun _ => by simp [STransform.makeInverse, construct, negAmt],
                fun hcon => by simp at hcon⟩
  · by_cases h3 : op = some "rotate"
    · subst h3
      simp [STransform.wf] at hwf
      obtain ⟨hm, hmatch⟩ := hwf
      cases mdl with
      | none => simp at hm
      | some M =>
          cases ax with
          | none => simp [axisAmtMatch] at hmatch
          | some a =>
              cases a <;> cases amt <;> simp [axisAmtMatch] at hmatch <;>
                exact ⟨_, rfl, rfl, rfl, rfl, rfl,
                  fun _ => by simp [STransform.makeInverse, construct, negAmt],
                  fun hcon => by simp at hcon⟩
    · by_cases h4 : op = some "scale"
      · subst h4
        simp [STransform.wf] at hwf
        obtain ⟨⟨hm, hmatch⟩, hpos⟩ := hwf
        cases mdl with
        | none => simp at hm
        | some M =>
            cases ax with
            | none => simp [axisAmtMatch] at hmatch
            | some a =>
                cases a with
                | x =>
                    cases amt with
                    | scalar v =>
                        simp [Amount.allPos] at hpos
                        have hb2 : isBadScale (Amount.scalar v⁻¹) = false := by
                          simp [isBadScale, not_le, inv_pos, hpos]
                        refine ⟨{ op := some "scale", axis := some Axis.x,
                                  amount := Amount.scalar v⁻¹, model := some M,
                                  reason := Option.none, inverse := true,
                                  dynamic := some false }, ?_, rfl, rfl, rfl, rfl, ?_, ?_⟩
                        · simp [STransform.makeInverse,
                                construct_scale_ok _ _ _ hb2]
                        · intro hcon; rcases hcon with h | h <;> simp at h
                        · intro _; simp [recipAmt, one_div]
                    | triple a0 a1 a2 => simp [axisAmtMatch] at hmatch
                    | undef => simp [axisAmtMatch] at hmatch
                | y =>
                    cases amt with
                    | scalar v =>
                        simp [Amount.allPos] at hpos
                        have hb2 : isBadScale (Amount.scalar v⁻¹) = false := by
                          simp [isBadScale, not_le, inv_pos, hpos]
                        refine ⟨{ op := some "scale", axis := some Axis.y,
                                  amount := Amount.scalar v⁻¹, model := some M,
                                  reason := Option.none, inverse := true,
                                  dynamic := some false }, ?_, rfl, rfl, rfl, rfl, ?_, ?_⟩
                        · simp [STransform.makeInverse,
                                construct_scale_ok _ _ _ hb2]
                        · intro hcon; rcases hcon with h | h <;> simp at h
                        · intro _; simp [recipAmt, one_div]
                    | triple a0 a1 a2 => simp [axisAmtMatch] at hmatch
                    | undef => simp [axisAmtMatch] at hmatch
                | z =>
                    cases amt with
                    | scalar v =>
                        simp [Amount.allPos] at hpos
                        have hb2 : isBadScale (Amount.scalar v⁻¹) = false := by
                          simp [isBadScale, not_le, inv_pos, hpos]
                        refine ⟨{ op := some "scale", axis := some Axis.z,
                                  amount := Amount.scalar v⁻¹, model := some M,
                                  reason := Option.none, inverse := true,
                                  dynamic := some false }, ?_, rfl, rfl, rfl, rfl, ?_, ?_⟩
                        · simp [STransform.makeInverse,
                                construct_scale_ok _ _ _ hb2]
                        · intro hcon; rcases hcon with h | h <;> simp at h
                        · intro _; simp [recipAmt, one_div]
                    | triple a0 a1 a2 => simp [axisAmtMatch] at hmatch
                    | undef => simp [axisAmtMatch] at hmatch
                | all =>
                    cases amt with
                    | scalar v => simp [axisAmtMatch] at hmatch
                    | triple a0 a1 a2 =>
                        simp [Amount.allPos] at hpos
                        obtain ⟨⟨h0, hp1⟩, hp2⟩ := hpos
                        have hb2 : isBadScale
                            (Amount.triple a0⁻¹ a1⁻¹ a2⁻¹) = false := by
                          simp [isBadScale, not_le, inv_pos, h0, hp1, hp2]
                        refine ⟨{ op := some "scale", axis := some Axis.all,
                                  amount := Amount.triple a0⁻¹ a1⁻¹ a2⁻¹,
                                  model := some M, reason := Option.none,
                                  inverse := true, dynamic := some false },
                                ?_, rfl, rfl, rfl, rfl, ?_, ?_⟩
                        · simp [STransform.makeInverse,
                                construct_scale_ok _ _ _ hb2]
                        · intro hcon; rcases hcon with h | h <;> simp at h
                        · intro _; simp [recipAmt, one_div]
                    | undef => simp [axisAmtMatch] at hmatch
      · by_cases h5 : op = some "toggleWireframe"
        · subst h5
          simp [STransform.wf] at hwf
          obtain ⟨⟨hm, hax⟩, hamt⟩ := hwf
          cases mdl with
          | none => simp at hm
          | some M =>
              cases ax with
              | some a => simp at hax
              | none =>
                  subst hamt
                  exact ⟨_, rfl, rfl, rfl, rfl, rfl,
                    fun hcon => by rcases hcon with h | h <;> simp at h,
                    fun hcon => by simp at hcon⟩
        · simp [STransform.wf, h1, h2, h3, h4, h5] at hwf

/-- Witness for C4 at a concrete translate Transform. -/
theorem makeInverse_nonNoop_spec_witness :
    (construct (some "translate") (some Axis.x) (Amount.scalar 5)
        (some testModel)).wf = true ∧
    (construct (some "translate") (some Axis.x) (Amount.scalar 5)
        (some testModel)).op ≠ some "noop" ∧
    ∃ inv, (construct (some "translate") (some Axis.x) (Amount.scalar 5)
        (some testModel)).makeInverse = some inv ∧
      inv.op = (construct (some "translate") (some Axis.x) (Amount.scalar 5)
        (some testModel)).op ∧
      inv.axis = (construct (some "translate") (some Axis.x) (Amount.scalar 5)
        (some testModel)).axis ∧
      inv.model = (construct (some "translate") (some Axis.x) (Amount.scalar 5)
        (some testModel)).model ∧
      inv.inverse = true ∧
      (((construct (some "translate") (some Axis.x) (Amount.scalar 5)
          (some testModel)).op = some "translate" ∨
        (construct (some "translate") (some Axis.x) (Amount.scalar 5)
          (some testModel)).op = some "rotate") →
        inv.amount = negAmt (construct (some "translate") (some Axis.x)
          (Amount.scalar 5) (some testModel)).amount) ∧
      ((construct (some "translate") (some Axis.x) (Amount.scalar 5)
          (some testModel)).op = some "scale" →
        inv.amount = recipAmt (construct (some "translate") (some Axis.x)
          (Amount.scalar 5) (some testModel)).amount) :=
  ⟨by decide, by decide,
   makeInverse_nonNoop_spec (construct (some "translate") (some Axis.x)
     (Amount.scalar 5) (some testModel)) (by decide) (by decide)⟩

/-- C1 (refuted at a concrete input): for the all-axis rotation Transform
with amounts (rx, ry, rz) = (1, 2, 3), the Transform returned by makeInverse
replays rotations in the order z by -1 (= -rx), y by -2 (= -ry), x by -3
(= -rz): the reversed axis order is paired with the unreversed amount
components, instead of z by -rz, y by -ry, x by -rx as the claim states.
Consequently the forward-then-inverse round trip leaves the orientation word
[(x,-3), (y,-2), (z,2), (y,2), (x,1)] - a composite no rotation-group law
cancels - instead of restoring the starting orientation []. -/
theorem rotate_all_inverse_misordered :
    ∃ tinv,
      (construct (some "rotate") (some Axis.all) (Amount.triple 1 2 3)
          (some testModel)).makeInverse = some tinv ∧
      (tinv.apply testModel).1.rot
        = [(SAxis.x, -3), (SAxis.y, -2), (SAxis.z, -1)] ∧
      (tinv.apply testModel).1.rot
        ≠ ((((testModel.rotate SAxis.z (-3)).rotate SAxis.y (-2)).rotate
            SAxis.x (-1)).rot) ∧
      (tinv.apply ((construct (some "rotate") (some Axis.all)
          (Amount.triple 1 2 3) (some testModel)).apply testModel).1).1.rot
        = [(SAxis.x, -3), (SAxis.y, -2), (SAxis.z, 2), (SAxis.y, 2),
           (SAxis.x, 1)] ∧
      (tinv.apply ((construct (some "rotate") (some Axis.all)
          (Amount.triple 1 2 3) (some testModel)).apply testModel).1).1.rot
        ≠ testModel.rot := by
  refine ⟨{ op := some "rotate", axis := some Axis.all,
            amount := Amount.triple (-1) (-2) (-3), model := some testModel,
            reason := Option.none, inverse := true, dynamic := some false },
          ?_, ?_, ?_, ?_, ?_⟩ <;>
    norm_num +decide [construct, STransform.makeInverse, STransform.apply,
                      SModel.rotate, pushRot, testModel]
